import Mathlib

/-!
Formal model of the interactive judging engine of the repository
(`src/AICodeforcer/interactive/tools/interaction_runner.py` and
`src/AICodeforcer/interactive/tools/interactive_stress_test.py`).

The runner's event loop is embedded as a deterministic step function over an
explicit environment trace: each loop iteration of `run_interaction` reads, from
the environment, the monotonic-clock samples (`time.perf_counter`), the two
`poll()` results, and the list of readiness events delivered by
`selectors.select` together with the bytes each `read` returned.  Times are
rationals (the Python floats are clock readings, not float arithmetic that the
claims depend on).  Byte strings are lists of naturals; the newline byte is 10.

Log lines are kept structured (tagged with their origin) rather than as the
formatted strings the source produces with f-strings, and likewise the error
messages: each `ErrMsg` constructor records exactly the data the source
interpolates into the corresponding message text.
-/

/-- Verdict enumeration of `interaction_runner.py`
(`Verdict = Literal["AC", "WA", "PE", "TLE", "RE"]`). -/
inductive Verdict where
  | AC
  | WA
  | PE
  | TLE
  | RE
deriving DecidableEq, Repr

/-- Structured form of the `error_message` strings produced by
`run_interaction`.  Each constructor carries the data the source interpolates
into the corresponding f-string. -/
inductive ErrMsg where
  /-- "Total timeout exceeded (`timeout_total`s)" (line 121). -/
  | totalTimeout (budget : Rat)
  /-- "Turn timeout exceeded (`timeout_per_turn`s)" (line 130). -/
  | turnTimeout (budget : Rat)
  /-- "Solver exited (code `solver_poll`) but judge didn't respond" (line 164). -/
  | solverExitedJudgeSilent (code : Option Int)
  /-- `str(e)` of the caught exception (line 234). -/
  | internalMsg (msg : String)
deriving DecidableEq, Repr

/-- One entry of `log_lines`, kept structured.  The source stores the
formatted string; the tag and payload here are exactly what that string is
built from. -/
inductive LogLine where
  /-- "[JUDGE -> SOLVER] `line`" (line 192); the payload is the raw line bytes
  (the source logs their `decode(errors="replace")`). -/
  | judgeToSolver (line : List Nat)
  /-- "[SOLVER -> JUDGE] `line`" (line 206). -/
  | solverToJudge (line : List Nat)
  /-- "[JUDGE STDERR] `data`" (line 217), after stripping; `True` = judge. -/
  | judgeStderr (data : List Nat)
  /-- "[SOLVER STDERR] `data`" (line 217), after stripping. -/
  | solverStderr (data : List Nat)
  /-- "[INFO] Solver exited with code `solver_poll`, waiting for judge..."
  (line 152). -/
  | solverExitInfo (code : Option Int)
deriving DecidableEq, Repr

/-- `InteractionResult` dataclass of `interaction_runner.py`.  `log` is the
structured transcript (the source stores the newline-join of the formatted
lines); `time_ms` is elapsed seconds times 1000. -/
structure InteractionResult where
  verdict : Verdict
  log : List LogLine
  time_ms : Rat
  exit_code : Option Int
  error_message : Option ErrMsg
deriving DecidableEq, Repr

/-- `_exit_code_to_verdict` (lines 257-266); the leading underscore of the
Python name is dropped. -/
def exit_code_to_verdict (exit_code : Int) : Verdict :=
  if exit_code = 0 then .AC
  else if exit_code = 1 then .WA
  else if exit_code = 2 then .PE
  else .RE

/-- Which byte stream of a child process an event was observed on.  Only
stdout and stderr of each process are registered with the selector
(lines 103-106). -/
inductive StreamKind where
  | stdout
  | stderr
deriving DecidableEq, Repr

/-- Which child process a stream belongs to (the `("judge", ...)` /
`("solver", ...)` tags registered with the selector). -/
inductive ProcTag where
  | judge
  | solver
deriving DecidableEq, Repr

/-- One readiness event delivered by `sel.select` together with the outcome of
the subsequent `key.fileobj.read(4096)` (lines 175-180).  `data = []` covers
both an empty read and a read that raised (the source maps the exception to
`b""`).  `peerAlive` records the result of the `solver_proc.poll() is None`
check made before forwarding a completed judge line (line 194); the source
samples it per completed line, the model samples it once per read event. -/
structure StreamEvent where
  source : ProcTag
  stream : StreamKind
  data : List Nat
  peerAlive : Bool
deriving DecidableEq, Repr

/-- Environment observations consumed by one iteration of the `while True`
loop of `run_interaction`.  `now` stands for the `time.perf_counter()` samples
taken in the top half of the iteration (lines 115, 124, 139, 151, 156, 158 -
within one iteration these real samples differ only by scheduling noise, the
model collapses them); `readTime` stands for the sample taken at line 185 when
data arrives.  `judgePoll` / `solverPoll` are the `poll()` results of line
134-135, and `events` is what `sel.select` returned. -/
structure Obs where
  now : Rat
  readTime : Rat
  judgePoll : Option Int
  solverPoll : Option Int
  events : List StreamEvent
deriving Repr

/-- Per-call constants of `run_interaction`: `start_time` (line 56), the
initial `last_activity` sample (line 110) and the two timeout arguments. -/
structure Config where
  startTime : Rat
  lastActivity0 : Rat
  timeoutTotal : Rat
  timeoutPerTurn : Rat
deriving Repr

/-- Mutable loop state of `run_interaction` (lines 55, 108-112), plus the two
lists of lines the loop attempted to forward to each peer's stdin (the source
performs these writes with errors swallowed, lines 195-199 and 208-212; the
model records the attempts). -/
structure LoopState where
  lastActivity : Rat
  solverExited : Bool
  solverExitTime : Option Rat
  judgeBuffer : List Nat
  solverBuffer : List Nat
  log : List LogLine
  solverInbox : List (List Nat)
  judgeInbox : List (List Nat)
deriving Repr

/-- Initial loop state at the top of the first iteration. -/
def initState (cfg : Config) : LoopState :=
  { lastActivity := cfg.lastActivity0
    solverExited := false
    solverExitTime := none
    judgeBuffer := []
    solverBuffer := []
    log := []
    solverInbox := []
    judgeInbox := [] }

/-- Splits a byte buffer at newline bytes exactly as the source's
`while b"\n" in buffer: line, buffer = buffer.split(b"\n", 1)` does:
returns the completed lines (without their terminators) and the remaining
partial buffer.  `acc` holds the bytes of the current line, reversed. -/
def takeLinesAux (acc : List Nat) : List Nat → List (List Nat) × List Nat
  | [] => ([], acc.reverse)
  | b :: rest =>
    if b = 10 then
      let p := takeLinesAux [] rest
      (acc.reverse :: p.1, p.2)
    else
      takeLinesAux (b :: acc) rest

/-- Completed lines and remaining partial buffer of a byte buffer. -/
def takeLines (buf : List Nat) : List (List Nat) × List Nat :=
  takeLinesAux [] buf

/-- Byte is one of Python's `str.strip()` whitespace characters (the stderr
data is decoded and stripped at line 215; the model strips at byte level). -/
def isSpaceByte (b : Nat) : Bool :=
  b = 32 || b = 9 || b = 10 || b = 13 || b = 11 || b = 12

/-- Python `.strip()` at byte level: drop leading and trailing whitespace. -/
def stripBytes (l : List Nat) : List Nat :=
  ((l.dropWhile isSpaceByte).reverse.dropWhile isSpaceByte).reverse

/-- Processing of one readiness event (lines 175-217): skip empty reads,
update `last_activity`, then split the stream's accumulated buffer into lines
(judge-stdout lines are logged and forwarded to the solver only while the
solver still polls alive; solver-stdout lines are logged and forwarded to the
judge unconditionally; stderr chunks are stripped and logged if nonempty,
never forwarded). -/
def processEvent (readTime : Rat) (st : LoopState) (e : StreamEvent) : LoopState :=
  if e.data = [] then st
  else
    let st1 := { st with lastActivity := readTime }
    match e.source, e.stream with
    | .judge, .stdout =>
      let p := takeLines (st1.judgeBuffer ++ e.data)
      { st1 with
        judgeBuffer := p.2
        log := st1.log ++ p.1.map LogLine.judgeToSolver
        solverInbox := st1.solverInbox ++ (if e.peerAlive then p.1 else []) }
    | .solver, .stdout =>
      let p := takeLines (st1.solverBuffer ++ e.data)
      { st1 with
        solverBuffer := p.2
        log := st1.log ++ p.1.map LogLine.solverToJudge
        judgeInbox := st1.judgeInbox ++ p.1 }
    | .judge, .stderr =>
      let s := stripBytes e.data
      if s = [] then st1 else { st1 with log := st1.log ++ [LogLine.judgeStderr s] }
    | .solver, .stderr =>
      let s := stripBytes e.data
      if s = [] then st1 else { st1 with log := st1.log ++ [LogLine.solverStderr s] }

/-- Instrumentation: which exit path of `run_interaction` produced a result.
This ghost tag is not a field of the source's result; it names the return
statement the model took. -/
inductive Cause where
  /-- Return at lines 116-122 (total budget exceeded). -/
  | totalBudget
  /-- Return at lines 125-131 (per-turn idle budget exceeded). -/
  | turnBudget
  /-- Return at lines 138-146 (judge exited with this code). -/
  | judgeExit (code : Int)
  /-- Return at lines 155-165 (grace window after solver exit expired);
  carries the solver `poll()` result recorded as `exit_code`. -/
  | graceWindow (solverCode : Option Int)
  /-- Return at lines 228-235 (internal exception caught). -/
  | internalExc
deriving DecidableEq, Repr

/-- The line-155 Python condition `solver_exited and solver_exit_time`:
`solver_exit_time` is truthy when it is set and nonzero (a float `0.0` is
falsy in Python, so the model keeps the same corner case). -/
def graceArmed (st : LoopState) : Bool :=
  st.solverExited &&
    (match st.solverExitTime with
     | some t => t != 0
     | none => false)

/-- Lines 149-152: the first time the solver is observed exited (it polls a
code and `solver_exited` is not yet set), record the fact, the current clock
as `solver_exit_time`, and the INFO log line. -/
def noteSolverExit (st : LoopState) (o : Obs) : LoopState :=
  if o.solverPoll.isSome && !st.solverExited then
    { st with
      solverExited := true
      solverExitTime := some o.now
      log := st.log ++ [LogLine.solverExitInfo o.solverPoll] }
  else st

/-- Lines 155-157: the grace window has expired - the solver has been dead
(with truthy exit time) for more than 2 seconds. -/
def graceExpired (st : LoopState) (o : Obs) : Bool :=
  graceArmed st && decide (o.now - st.solverExitTime.getD 0 > 2)

/-- One iteration of the `while True` loop of `run_interaction`
(lines 114-217): check the two timeout budgets, then poll the judge (its exit
is authoritative), then record a first observed solver exit, then check the
2-second grace window, and otherwise drain the readiness events. -/
def loopStep (cfg : Config) (st : LoopState) (o : Obs) : LoopState ⊕ (InteractionResult × Cause) :=
  if o.now - cfg.startTime > cfg.timeoutTotal then
    .inr (⟨.TLE, st.log, (o.now - cfg.startTime) * 1000, none,
           some (.totalTimeout cfg.timeoutTotal)⟩, .totalBudget)
  else if o.now - st.lastActivity > cfg.timeoutPerTurn then
    .inr (⟨.TLE, st.log, (o.now - cfg.startTime) * 1000, none,
           some (.turnTimeout cfg.timeoutPerTurn)⟩, .turnBudget)
  else
    match o.judgePoll with
    | some code =>
      .inr (⟨exit_code_to_verdict code, st.log, (o.now - cfg.startTime) * 1000,
             some code, none⟩, .judgeExit code)
    | none =>
      if graceExpired (noteSolverExit st o) o then
        .inr (⟨.RE, (noteSolverExit st o).log, (o.now - cfg.startTime) * 1000,
               o.solverPoll, some (.solverExitedJudgeSilent o.solverPoll)⟩,
              .graceWindow o.solverPoll)
      else
        .inl (o.events.foldl (processEvent o.readTime) (noteSolverExit st o))

/-- The event loop run over a finite trace of observations: either an early
return (with its cause) or the state after consuming the whole trace with the
loop still running. -/
def runLoop (cfg : Config) : LoopState → List Obs → LoopState ⊕ (InteractionResult × Cause)
  | st, [] => .inl st
  | st, o :: rest =>
    match loopStep cfg st o with
    | .inr r => .inr r
    | .inl st2 => runLoop cfg st2 rest

/-- `run_interaction` after its three temporary files exist: the
`try ... except Exception` body (lines 75-235).  `exc = some (k, t, msg)`
models an exception with description `msg` raised at clock time `t` during
iteration `k` (before that iteration's own return); the `except` clause turns
it into an `RE` result (lines 228-235).  `none` in the result means the trace
ended with the loop still running (the real loop would keep iterating; its
fall-through return at lines 220-226 is unreachable).  The function is total:
no outcome of the modelled body escapes as an exception. -/
def run_interaction (cfg : Config) (trace : List Obs) (exc : Option (Nat × Rat × String)) :
    Option (InteractionResult × Cause) :=
  match exc with
  | none =>
    match runLoop cfg (initState cfg) trace with
    | .inr r => some r
    | .inl _ => none
  | some (k, t, msg) =>
    match runLoop cfg (initState cfg) (trace.take k) with
    | .inr r => some r
    | .inl st =>
      some (⟨.RE, st.log, (t - cfg.startTime) * 1000, none, some (.internalMsg msg)⟩,
            .internalExc)

/-- The `finally` block's file cleanup (lines 249-254): for each of the three
temporary files, `Path(f).unlink(missing_ok=True)` inside a
`try ... except Exception: pass`.  `unlinkFails f = true` models the
operating system raising on the unlink of `f` (the failure is swallowed and
`f` stays on disk); `fs` is the set of files on disk, as a list. -/
def cleanup_temp_files (unlinkFails : String → Bool) (fs : List String)
    (tempFiles : List String) : List String :=
  tempFiles.foldl
    (fun acc f => if unlinkFails f then acc else acc.filter (fun g => g ≠ f)) fs

/-- The environment's response to `_cleanup_processes`' termination attempt on
one process (lines 274-291). -/
inductive TermEnv where
  /-- `terminate()` then `wait(timeout=1)` both return: process dies. -/
  | termWorks
  /-- `wait(timeout=1)` raises `TimeoutExpired`; `kill()` is issued and the
  second `wait` reaps the process iff `killWorks` (a failure there is
  swallowed by `except Exception: pass`). -/
  | killAfterTimeout (killWorks : Bool)
  /-- `terminate()` itself raises; the bare `kill()` in the outer handler is
  attempted and takes effect iff `killWorks` (its failure is swallowed). -/
  | termRaises (killWorks : Bool)
deriving DecidableEq, Repr

/-- `_cleanup_processes` for one process handle: given whether the process was
still running (`poll() is None`, line 278) and the environment's response,
returns whether the process is STILL ALIVE afterwards.  An already-exited
process is skipped. -/
def cleanup_process (wasRunning : Bool) (env : TermEnv) : Bool :=
  if !wasRunning then false
  else
    match env with
    | .termWorks => false
    | .killAfterTimeout killWorks => !killWorks
    | .termRaises killWorks => !killWorks

/-- The termination environment lets the graceful-or-forceful signal take
effect (the normal case on a real system: `SIGKILL` is not ignorable). -/
def termEffective : TermEnv → Bool
  | .termWorks => true
  | .killAfterTimeout killWorks => killWorks
  | .termRaises killWorks => killWorks

/-- The child environment dict built at lines 76-80:
`PATH` is copied from the parent's ambient `PATH` (empty string when unset),
`PYTHONUNBUFFERED` is the literal "1", and `HOME` is the temp directory the
standard library reports (`tempfile.gettempdir()`, passed in here as
`tmpdir`). -/
def buildEnv (parentEnv : String → Option String) (tmpdir : String) :
    List (String × String) :=
  [("PATH", (parentEnv "PATH").getD ""),
   ("PYTHONUNBUFFERED", "1"),
   ("HOME", tmpdir)]

/-- Argument vector and environment a child process is spawned with. -/
structure SpawnSpec where
  argv : List String
  env : List (String × String)
deriving DecidableEq, Repr

/-- The judge `Popen` call (lines 83-90): `[sys.executable, judge_file,
input_file]` with the explicit environment dict. -/
def judgeSpawn (pythonExe judgeFile inputFile : String)
    (parentEnv : String → Option String) (tmpdir : String) : SpawnSpec :=
  { argv := [pythonExe, judgeFile, inputFile], env := buildEnv parentEnv tmpdir }

/-- The solver `Popen` call (lines 93-100): `[sys.executable, solver_file]`
with the same explicit environment dict. -/
def solverSpawn (pythonExe solverFile : String)
    (parentEnv : String → Option String) (tmpdir : String) : SpawnSpec :=
  { argv := [pythonExe, solverFile], env := buildEnv parentEnv tmpdir }

/-- Result record of the external sandboxed executor `execute_code`
(its fields as consumed by `interactive_stress_test`: `status`,
`actual_output`, `error_message`).  The executor itself is an external
collaborator; `interactive_stress_test` is modelled as parameterized by the
results it returns per trial. -/
structure ExecResult where
  status : String
  actual_output : Option String
  error_message : Option String
deriving DecidableEq, Repr

/-- Structured form of the three report strings `interactive_stress_test`
formats: each constructor carries exactly the data interpolated into the
corresponding f-string. -/
inductive StressReport where
  /-- "=== GENERATOR ERROR ===" block (lines 34-40): 1-based test number, the
  `or`-defaulted error message, the `or`-defaulted stripped stdout, and the
  raw status. -/
  | generatorError (testNum : Nat) (errorMessage : String) (stdout : String)
      (status : String)
  /-- "=== INTERACTIVE TEST FAILED ===" block (lines 54-67): 1-based test
  number, then verdict, time, optional exit code, optional error message,
  the test input and the full interaction log of the failed trial. -/
  | testFailed (testNum : Nat) (verdict : Verdict) (time_ms : Rat)
      (exit_code : Option Int) (error_message : Option ErrMsg)
      (testInput : String) (log : List LogLine)
  /-- "=== INTERACTIVE STRESS TEST PASSED ===" block (lines 69-71), carrying
  the `num_tests` value it interpolates. -/
  | passed (numTests : Int)
deriving DecidableEq, Repr

/-- Python's `x or default` for an optional string: `None` and the empty
string are falsy. -/
def pyOrElse (o : Option String) (dflt : String) : String :=
  match o with
  | some s => if s = "" then dflt else s
  | none => dflt

/-- Characters Python's `str.strip()` removes. -/
def isPySpace (c : Char) : Bool :=
  c = ' ' || c = '\t' || c = '\n' || c = '\r' || c = '\x0b' || c = '\x0c'

/-- Python's `str.strip()`. -/
def pyStrip (s : String) : String :=
  String.mk (((s.toList.dropWhile isPySpace).reverse.dropWhile isPySpace).reverse)

/-- The test input a trial uses: `gen_result.actual_output or ""` (line 42;
for strings `x or ""` coincides with defaulting `None` to `""`). -/
def trialInput (g : ExecResult) : String :=
  g.actual_output.getD ""

/-- The `for i in range(num_tests)` body of `interactive_stress_test`
(lines 24-67), indexed by the current 0-based trial `i` and the remaining
iteration count.  `gen i` is the executor's result for trial `i` (the source
calls `execute_code(generator_code, "", 5.0, 256)` there); `interact i input`
is the `InteractionResult` of `run_interaction(judge_code, solution_code,
input, 30.0, 2.0)` for trial `i`. -/
def stressLoop (gen : Nat → ExecResult) (interact : Nat → String → InteractionResult)
    (num_tests : Int) : Nat → Nat → StressReport
  | _, 0 => .passed num_tests
  | i, fuel + 1 =>
    let g := gen i
    if g.status ≠ "passed" then
      .generatorError (i + 1) (pyOrElse g.error_message "Unknown error")
        (pyStrip (pyOrElse g.actual_output "")) g.status
    else
      let r := interact i (trialInput g)
      if r.verdict ≠ .AC then
        .testFailed (i + 1) r.verdict r.time_ms r.exit_code r.error_message
          (trialInput g) r.log
      else
        stressLoop gen interact num_tests (i + 1) fuel

/-- `interactive_stress_test` (lines 7-71): run `range(num_tests)` trials
fail-fast; a non-positive `num_tests` gives an empty range. -/
def interactive_stress_test (gen : Nat → ExecResult)
    (interact : Nat → String → InteractionResult) (num_tests : Int) : StressReport :=
  stressLoop gen interact num_tests 0 num_tests.toNat

/-- The exit code a result carries, as a function of the exit path taken:
the judge's code on the authoritative-exit path, the recorded solver poll on
the grace-window path, nothing otherwise. -/
def causeExitCode : Cause → Option Int
  | .judgeExit k => some k
  | .graceWindow sp => sp
  | _ => none

/-- The verdict a result carries, as a function of the exit path taken. -/
def causeVerdict : Cause → Verdict
  | .totalBudget => .TLE
  | .turnBudget => .TLE
  | .judgeExit k => exit_code_to_verdict k
  | .graceWindow _ => .RE
  | .internalExc => .RE

/-- The exit-code presence rule exactly as the claim enumerates it: a result's
exit code is present if and only if the verdict is AC, WA, PE, or an RE caused
by a recorded SOLVER exit code (that is, produced by the grace-window return). -/
def exitCodePresenceSpec (r : InteractionResult) (c : Cause) : Prop :=
  r.exit_code.isSome = true ↔
    (r.verdict = .AC ∨ r.verdict = .WA ∨ r.verdict = .PE ∨
      (r.verdict = .RE ∧ ∃ k, c = .graceWindow (some k)))

/-- Trial `j` of the stress loop goes through: the generator run passed and
the interaction on its output was accepted. -/
def trialPasses (gen : Nat → ExecResult) (interact : Nat → String → InteractionResult)
    (j : Nat) : Prop :=
  (gen j).status = "passed" ∧ (interact j (trialInput (gen j))).verdict = .AC

theorem runLoop_append (cfg : Config) (st : LoopState) (l1 l2 : List Obs) :
    runLoop cfg st (l1 ++ l2) =
      match runLoop cfg st l1 with
      | .inl s => runLoop cfg s l2
      | .inr r => .inr r := by
  induction l1 generalizing st with
  | nil => simp [runLoop]
  | cons o rest ih =>
    simp only [List.cons_append, runLoop]
    cases loopStep cfg st o with
    | inl s2 => simp [ih]
    | inr r => simp

theorem loopStep_total_tle (cfg : Config) (st : LoopState) (o : Obs)
    (h : o.now - cfg.startTime > cfg.timeoutTotal) :
    loopStep cfg st o =
      .inr (⟨.TLE, st.log, (o.now - cfg.startTime) * 1000, none,
             some (.totalTimeout cfg.timeoutTotal)⟩, .totalBudget) := by
  simp only [loopStep, if_pos h]

theorem loopStep_turn_tle (cfg : Config) (st : LoopState) (o : Obs)
    (h1 : o.now - cfg.startTime ≤ cfg.timeoutTotal)
    (h2 : o.now - st.lastActivity > cfg.timeoutPerTurn) :
    loopStep cfg st o =
      .inr (⟨.TLE, st.log, (o.now - cfg.startTime) * 1000, none,
             some (.turnTimeout cfg.timeoutPerTurn)⟩, .turnBudget) := by
  simp only [loopStep, if_neg (not_lt.mpr h1), if_pos h2]

theorem loopStep_judge_exit (cfg : Config) (st : LoopState) (o : Obs) (c : Int)
    (hpoll : o.judgePoll = some c)
    (h1 : o.now - cfg.startTime ≤ cfg.timeoutTotal)
    (h2 : o.now - st.lastActivity ≤ cfg.timeoutPerTurn) :
    loopStep cfg st o =
      .inr (⟨exit_code_to_verdict c, st.log, (o.now - cfg.startTime) * 1000,
             some c, none⟩, .judgeExit c) := by
  simp only [loopStep, if_neg (not_lt.mpr h1), if_neg (not_lt.mpr h2), hpoll]

theorem loopStep_grace (cfg : Config) (st : LoopState) (o : Obs) (t : Rat) (c : Int)
    (hexited : st.solverExited = true)
    (htime : st.solverExitTime = some t)
    (ht0 : t ≠ 0)
    (hjp : o.judgePoll = none)
    (hsp : o.solverPoll = some c)
    (h1 : o.now - cfg.startTime ≤ cfg.timeoutTotal)
    (h2 : o.now - st.lastActivity ≤ cfg.timeoutPerTurn)
    (hgrace : o.now - t > 2) :
    loopStep cfg st o =
      .inr (⟨.RE, st.log, (o.now - cfg.startTime) * 1000, some c,
             some (.solverExitedJudgeSilent (some c))⟩, .graceWindow (some c)) := by
  have hnote : noteSolverExit st o = st := by
    simp [noteSolverExit, hexited]
  have hexp : graceExpired st o = true := by
    simp [graceExpired, graceArmed, hexited, htime, ht0, hgrace]
  simp [loopStep, not_lt.mpr h1, not_lt.mpr h2, hjp, hnote, hexp, hsp]

/-- C1: the verdict resolver is a pure total function on integer exit codes,
mapping 0 to AC, 1 to WA, 2 to PE and every other integer to RE. -/
theorem resolver_verdict_mapping (c : Int) :
    (c = 0 → exit_code_to_verdict c = .AC) ∧
    (c = 1 → exit_code_to_verdict c = .WA) ∧
    (c = 2 → exit_code_to_verdict c = .PE) ∧
    (c ≠ 0 → c ≠ 1 → c ≠ 2 → exit_code_to_verdict c = .RE) := by
  refine ⟨?_, ?_, ?_, ?_⟩
  · intro h; simp [exit_code_to_verdict, h]
  · intro h; simp [exit_code_to_verdict, h]
  · intro h; simp [exit_code_to_verdict, h]
  · intro h0 h1 h2; simp [exit_code_to_verdict, h0, h1, h2]

/-- Witness for C1 at the concrete exit codes 0, 1, 2 and 7. -/
theorem resolver_verdict_mapping_witness :
    exit_code_to_verdict 0 = .AC ∧ exit_code_to_verdict 1 = .WA ∧
    exit_code_to_verdict 2 = .PE ∧ exit_code_to_verdict 7 = .RE :=
  ⟨(resolver_verdict_mapping 0).1 rfl, (resolver_verdict_mapping 1).2.1 rfl,
   (resolver_verdict_mapping 2).2.2.1 rfl,
   (resolver_verdict_mapping 7).2.2.2 (by decide) (by decide) (by decide)⟩

/-- C2: judge exit is authoritative.  If the loop has not returned over the
prefix `pre` of the trace and the next iteration observes the judge exited
with code `c` while neither budget is exceeded, the run returns exactly the
resolver's mapping of `c`, with the judge's code recorded; the transcript is
the one accumulated before this iteration, and the result does not depend on
the iteration's own readiness events nor on any later observation (`rest`),
so no further stream lines are processed. -/
theorem judge_exit_authoritative (cfg : Config) (st : LoopState) (pre : List Obs)
    (o : Obs) (rest : List Obs) (c : Int)
    (hpre : runLoop cfg (initState cfg) pre = .inl st)
    (hpoll : o.judgePoll = some c)
    (htotal : o.now - cfg.startTime ≤ cfg.timeoutTotal)
    (hidle : o.now - st.lastActivity ≤ cfg.timeoutPerTurn) :
    runLoop cfg (initState cfg) (pre ++ o :: rest) =
      .inr (⟨exit_code_to_verdict c, st.log, (o.now - cfg.startTime) * 1000,
             some c, none⟩, .judgeExit c) := by
  rw [runLoop_append, hpre]
  simp only [runLoop, loopStep_judge_exit cfg st o c hpoll htotal hidle]

/-- C4: exceeding the total wall-clock budget resolves the trial as TLE with
the total-budget message, and exceeding the per-turn idle budget (even when
the total budget has not elapsed) resolves it as TLE with the turn-budget
message; in either case no exit code is recorded. -/
theorem timeout_budgets_tle (cfg : Config) (st : LoopState) (pre : List Obs)
    (o : Obs) (rest : List Obs)
    (hpre : runLoop cfg (initState cfg) pre = .inl st) :
    (o.now - cfg.startTime > cfg.timeoutTotal →
      runLoop cfg (initState cfg) (pre ++ o :: rest) =
        .inr (⟨.TLE, st.log, (o.now - cfg.startTime) * 1000, none,
               some (.totalTimeout cfg.timeoutTotal)⟩, .totalBudget)) ∧
    (o.now - cfg.startTime ≤ cfg.timeoutTotal →
      o.now - st.lastActivity > cfg.timeoutPerTurn →
      runLoop cfg (initState cfg) (pre ++ o :: rest) =
        .inr (⟨.TLE, st.log, (o.now - cfg.startTime) * 1000, none,
               some (.turnTimeout cfg.timeoutPerTurn)⟩, .turnBudget)) := by
  constructor
  · intro h
    rw [runLoop_append, hpre]
    simp only [runLoop, loopStep_total_tle cfg st o h]
  · intro h1 h2
    rw [runLoop_append, hpre]
    simp only [runLoop, loopStep_turn_tle cfg st o h1 h2]

/-- C5: grace-window rule.  If the loop reaches a state where the solver has
been observed exited (at nonzero clock time `t`), and an iteration then finds
the judge still running more than 2 seconds after `t` with neither budget
exceeded and the solver polling its exit code `c`, the run returns RE carrying
`exit_code = c` and the judge-never-acknowledged message. -/
theorem grace_window_re (cfg : Config) (st : LoopState) (pre : List Obs)
    (o : Obs) (rest : List Obs) (t : Rat) (c : Int)
    (hpre : runLoop cfg (initState cfg) pre = .inl st)
    (hexited : st.solverExited = true)
    (htime : st.solverExitTime = some t)
    (ht0 : t ≠ 0)
    (hjp : o.judgePoll = none)
    (hsp : o.solverPoll = some c)
    (htotal : o.now - cfg.startTime ≤ cfg.timeoutTotal)
    (hidle : o.now - st.lastActivity ≤ cfg.timeoutPerTurn)
    (hgrace : o.now - t > 2) :
    runLoop cfg (initState cfg) (pre ++ o :: rest) =
      .inr (⟨.RE, st.log, (o.now - cfg.startTime) * 1000, some c,
             some (.solverExitedJudgeSilent (some c))⟩, .graceWindow (some c)) := by
  rw [runLoop_append, hpre]
  simp only [runLoop,
    loopStep_grace cfg st o t c hexited htime ht0 hjp hsp htotal hidle hgrace]

/-- C7: once the trial is underway the modelled body never raises (it is a
total function into results), and an internal exception with description
`msg` raised at clock `t` during iteration `k` of a still-running loop is
returned as an RE result carrying that description, the transcript so far and
no exit code. -/
theorem internal_exception_re (cfg : Config) (trace : List Obs) (k : Nat)
    (t : Rat) (msg : String) (st : LoopState)
    (h : runLoop cfg (initState cfg) (List.take k trace) = .inl st) :
    run_interaction cfg trace (some (k, t, msg)) =
      some (⟨.RE, st.log, (t - cfg.startTime) * 1000, none,
             some (.internalMsg msg)⟩, .internalExc) := by
  simp [run_interaction, h]

theorem loopStep_inr_rel (cfg : Config) (st : LoopState) (o : Obs)
    (r : InteractionResult) (c : Cause)
    (h : loopStep cfg st o = .inr (r, c)) :
    r.exit_code = causeExitCode c ∧ r.verdict = causeVerdict c := by
  unfold loopStep at h
  by_cases h1 : o.now - cfg.startTime > cfg.timeoutTotal
  · rw [if_pos h1] at h
    simp only [Sum.inr.injEq, Prod.mk.injEq] at h
    obtain ⟨hr, hc⟩ := h
    subst hr; subst hc
    exact ⟨rfl, rfl⟩
  · rw [if_neg h1] at h
    by_cases h2 : o.now - st.lastActivity > cfg.timeoutPerTurn
    · rw [if_pos h2] at h
      simp only [Sum.inr.injEq, Prod.mk.injEq] at h
      obtain ⟨hr, hc⟩ := h
      subst hr; subst hc
      exact ⟨rfl, rfl⟩
    · rw [if_neg h2] at h
      cases hjp : o.judgePoll with
      | some code =>
        rw [hjp] at h
        dsimp only at h
        simp only [Sum.inr.injEq, Prod.mk.injEq] at h
        obtain ⟨hr, hc⟩ := h
        subst hr; subst hc
        exact ⟨rfl, rfl⟩
      | none =>
        rw [hjp] at h
        dsimp only at h
        by_cases hg : graceExpired (noteSolverExit st o) o = true
        · rw [if_pos hg] at h
          simp only [Sum.inr.injEq, Prod.mk.injEq] at h
          obtain ⟨hr, hc⟩ := h
          subst hr; subst hc
          exact ⟨rfl, rfl⟩
        · rw [if_neg hg] at h
          simp at h

theorem runLoop_inr_rel (cfg : Config) (l : List Obs) (st : LoopState)
    (r : InteractionResult) (c : Cause)
    (h : runLoop cfg st l = .inr (r, c)) :
    r.exit_code = causeExitCode c ∧ r.verdict = causeVerdict c := by
  induction l generalizing st with
  | nil => simp [runLoop] at h
  | cons o rest ih =>
    simp only [runLoop] at h
    cases hstep : loopStep cfg st o with
    | inl st2 =>
      rw [hstep] at h
      exact ih st2 h
    | inr p =>
      rw [hstep] at h
      simp only [Sum.inr.injEq] at h
      subst h
      exact loopStep_inr_rel cfg st o r c hstep

theorem run_interaction_rel (cfg : Config) (trace : List Obs)
    (exc : Option (Nat × Rat × String)) (r : InteractionResult) (c : Cause)
    (h : run_interaction cfg trace exc = some (r, c)) :
    r.exit_code = causeExitCode c ∧ r.verdict = causeVerdict c := by
  cases exc with
  | none =>
    simp only [run_interaction] at h
    cases hrl : runLoop cfg (initState cfg) trace with
    | inl st => rw [hrl] at h; simp at h
    | inr p =>
      rw [hrl] at h
      simp only [Option.some.injEq] at h
      subst h
      exact runLoop_inr_rel cfg trace (initState cfg) r c hrl
  | some ktm =>
    obtain ⟨k, t, msg⟩ := ktm
    simp only [run_interaction] at h
    cases hrl : runLoop cfg (initState cfg) (List.take k trace) with
    | inl st =>
      rw [hrl] at h
      simp only [Option.some.injEq, Prod.mk.injEq] at h
      obtain ⟨hr, hc⟩ := h
      subst hr; subst hc
      exact ⟨rfl, rfl⟩
    | inr p =>
      rw [hrl] at h
      simp only [Option.some.injEq] at h
      subst h
      exact runLoop_inr_rel cfg (List.take k trace) (initState cfg) r c hrl

theorem exit_code_to_verdict_cases (k : Int) :
    (exit_code_to_verdict k = .AC ↔ k = 0) ∧
    (exit_code_to_verdict k = .WA ↔ k = 1) ∧
    (exit_code_to_verdict k = .PE ↔ k = 2) ∧
    exit_code_to_verdict k ≠ .TLE := by
  rcases eq_or_ne k 0 with h0 | h0
  · simp [exit_code_to_verdict, h0]
  · rcases eq_or_ne k 1 with h1 | h1
    · simp [exit_code_to_verdict, h0, h1]
    · rcases eq_or_ne k 2 with h2 | h2
      · simp [exit_code_to_verdict, h0, h1, h2]
      · simp [exit_code_to_verdict, h0, h1, h2]

/-- C3 (amended): for every result `run_interaction` returns, the exit code is
exactly the code the taken exit path recorded: present if and only if the
verdict came from a judge exit (AC/WA/PE for codes 0/1/2, RE for any other
judge code) or from the grace-window RE recording the solver's polled exit
code; AC/WA/PE carry the judge's own code 0/1/2 respectively, and a TLE
result never carries an exit code.  (The claim's enumeration said "an RE
caused by a recorded SOLVER exit code"; the judge-exit path with a code
outside 0,1,2 also yields an RE that carries that judge code.) -/
theorem exit_code_presence_amended (cfg : Config) (trace : List Obs)
    (exc : Option (Nat × Rat × String)) (r : InteractionResult) (c : Cause)
    (h : run_interaction cfg trace exc = some (r, c)) :
    r.exit_code = causeExitCode c ∧
    (r.verdict = .AC → r.exit_code = some 0) ∧
    (r.verdict = .WA → r.exit_code = some 1) ∧
    (r.verdict = .PE → r.exit_code = some 2) ∧
    (r.verdict = .TLE → r.exit_code = none) ∧
    (r.exit_code.isSome = true ↔
      (∃ k, c = .judgeExit k) ∨ (∃ k, c = .graceWindow (some k))) := by
  obtain ⟨hx, hv⟩ := run_interaction_rel cfg trace exc r c h
  refine ⟨hx, ?_, ?_, ?_, ?_, ?_⟩
  · intro hac
    rw [hv] at hac
    cases c with
    | judgeExit k =>
      have hk := ((exit_code_to_verdict_cases k).1).mp hac
      subst hk
      simpa [causeExitCode] using hx
    | totalBudget => simp [causeVerdict] at hac
    | turnBudget => simp [causeVerdict] at hac
    | graceWindow sp => simp [causeVerdict] at hac
    | internalExc => simp [causeVerdict] at hac
  · intro hwa
    rw [hv] at hwa
    cases c with
    | judgeExit k =>
      have hk := ((exit_code_to_verdict_cases k).2.1).mp hwa
      subst hk
      simpa [causeExitCode] using hx
    | totalBudget => simp [causeVerdict] at hwa
    | turnBudget => simp [causeVerdict] at hwa
    | graceWindow sp => simp [causeVerdict] at hwa
    | internalExc => simp [causeVerdict] at hwa
  · intro hpe
    rw [hv] at hpe
    cases c with
    | judgeExit k =>
      have hk := ((exit_code_to_verdict_cases k).2.2.1).mp hpe
      subst hk
      simpa [causeExitCode] using hx
    | totalBudget => simp [causeVerdict] at hpe
    | turnBudget => simp [causeVerdict] at hpe
    | graceWindow sp => simp [causeVerdict] at hpe
    | internalExc => simp [causeVerdict] at hpe
  · intro htle
    rw [hv] at htle
    cases c with
    | judgeExit k => exact absurd htle (exit_code_to_verdict_cases k).2.2.2
    | totalBudget => simpa [causeExitCode] using hx
    | turnBudget => simpa [causeExitCode] using hx
    | graceWindow sp => simp [causeVerdict] at htle
    | internalExc => simp [causeVerdict] at htle
  · rw [hx]
    cases c with
    | judgeExit k => simp [causeExitCode]
    | totalBudget => simp [causeExitCode]
    | turnBudget => simp [causeExitCode]
    | internalExc => simp [causeExitCode]
    | graceWindow sp =>
      cases sp with
      | none => simp [causeExitCode]
      | some k => simp [causeExitCode]

theorem mem_cleanup_temp_files (u : String → Bool) (ts fs : List String) (x : String)
    (hx : x ∈ cleanup_temp_files u fs ts) : x ∈ fs := by
  induction ts generalizing fs with
  | nil => simpa [cleanup_temp_files] using hx
  | cons t ts ih =>
    simp only [cleanup_temp_files, List.foldl_cons] at hx ih
    have h2 := ih _ hx
    by_cases hu : u t
    · rwa [if_pos hu] at h2
    · rw [if_neg hu] at h2
      exact List.mem_of_mem_filter h2

theorem not_mem_cleanup_temp_files (u : String → Bool) (ts : List String) (f : String)
    (hf : f ∈ ts) (hu : u f = false) :
    ∀ fs, f ∉ cleanup_temp_files u fs ts := by
  induction ts with
  | nil => cases hf
  | cons t ts ih =>
    intro fs
    simp only [cleanup_temp_files, List.foldl_cons] at ih ⊢
    rcases List.mem_cons.mp hf with h | h
    · subst h
      rw [if_neg (by simp [hu])]
      intro hmem
      have h2 := mem_cleanup_temp_files u ts (fs.filter (fun g => g ≠ f)) f
        (by simpa [cleanup_temp_files] using hmem)
      simp at h2
    · exact ih h _

/-- C6 (amended): cleanup is best-effort on every exit path: an unlink is
attempted on each of the three temporary files and, whenever the operating
system lets every unlink succeed, none of them remains on disk; likewise
termination (graceful signal, then kill after the one-second wait) is
attempted on each process and, whenever the signals take effect, no process
remains alive.  (The claim's unconditional "none exist on disk, both
terminated" does not survive an unlink or kill the OS refuses: the source
swallows those failures.) -/
theorem cleanup_best_effort (unlinkFails : String → Bool) (fs tempFiles : List String)
    (hok : ∀ f ∈ tempFiles, unlinkFails f = false) :
    (∀ f ∈ tempFiles, f ∉ cleanup_temp_files unlinkFails fs tempFiles) ∧
    (∀ wasRunning env, termEffective env = true →
      cleanup_process wasRunning env = false) := by
  constructor
  · intro f hf
    exact not_mem_cleanup_temp_files unlinkFails tempFiles f hf (hok f hf) fs
  · intro wasRunning env heff
    cases env <;> cases wasRunning <;>
      simp_all [cleanup_process, termEffective]

/-- Counterexample to C6 as stated: when the operating system makes the
unlink of the judge source fail (a `PermissionError`, say), the swallowed
exception leaves that file on disk after `run_interaction` returns. -/
theorem cleanup_files_can_remain :
    "judge.py" ∈ cleanup_temp_files (fun f => f == "judge.py")
      ["judge.py", "solver.py", "input.txt"] ["judge.py", "solver.py", "input.txt"] ∧
    cleanup_temp_files (fun f => f == "judge.py")
      ["judge.py", "solver.py", "input.txt"] ["judge.py", "solver.py", "input.txt"] =
      ["judge.py"] := by
  constructor <;> decide

/-- Witness for C6 (amended) at a concrete environment where every unlink
succeeds: all three files are gone and an effectively-signalled process dies. -/
theorem cleanup_best_effort_witness :
    ((∀ f ∈ (["judge.py", "solver.py", "input.txt"] : List String),
        (fun _ : String => false) f = false) ∧
      "judge.py" ∉ cleanup_temp_files (fun _ => false)
        ["judge.py", "solver.py", "input.txt"] ["judge.py", "solver.py", "input.txt"]) ∧
    cleanup_process true .termWorks = false := by
  have h := cleanup_best_effort (fun _ => false)
    ["judge.py", "solver.py", "input.txt"] ["judge.py", "solver.py", "input.txt"]
    (fun _ _ => rfl)
  exact ⟨⟨fun _ _ => rfl, h.1 "judge.py" (by decide)⟩, h.2 true .termWorks rfl⟩

theorem stressLoop_step (gen : Nat → ExecResult)
    (interact : Nat → String → InteractionResult) (n : Int) (i fuel : Nat)
    (hp : trialPasses gen interact i) :
    stressLoop gen interact n i (fuel + 1) = stressLoop gen interact n (i + 1) fuel := by
  obtain ⟨h1, h2⟩ := hp
  simp [stressLoop, h1, h2]

theorem stressLoop_skip (gen : Nat → ExecResult)
    (interact : Nat → String → InteractionResult) (n : Int) (k : Nat) :
    ∀ i fuel : Nat, (∀ j, j < k → trialPasses gen interact (i + j)) → k ≤ fuel →
      stressLoop gen interact n i fuel = stressLoop gen interact n (i + k) (fuel - k) := by
  induction k with
  | zero => intro i fuel _ _; simp
  | succ k ih =>
    intro i fuel h hk
    obtain ⟨f, rfl⟩ : ∃ f, fuel = f + 1 := ⟨fuel - 1, by omega⟩
    rw [stressLoop_step gen interact n i f (by simpa using h 0 (by omega))]
    rw [ih (i + 1) f (fun j hj => by
      have := h (j + 1) (by omega)
      rwa [show i + (j + 1) = i + 1 + j by omega] at this) (by omega)]
    rw [show i + 1 + k = i + (k + 1) by omega, show f - k = f + 1 - (k + 1) by omega]

/-- C8: `interactive_stress_test` is fail-fast with a three-shape result.
With all trials before index `i` passing: a non-"passed" generator status at
trial `i` aborts the whole run with the generator-error report for trial
`i + 1` (1-based) built from the executor's message and partial output, and
the result does not depend on the interaction oracle at trial `i` or later (no
interaction is attempted); a passing generator but a non-AC interaction at
trial `i` aborts with the failure report carrying verdict, elapsed time, exit
code, error message, test input and transcript of that trial; and when every
one of the `num_tests` trials passes the pass report confirming the count is
returned. -/
theorem stress_test_fail_fast (gen : Nat → ExecResult)
    (interact : Nat → String → InteractionResult) (n : Int) (i : Nat)
    (hprev : ∀ j, j < i → trialPasses gen interact j) :
    (i < n.toNat → (gen i).status ≠ "passed" →
      interactive_stress_test gen interact n =
        .generatorError (i + 1) (pyOrElse (gen i).error_message "Unknown error")
          (pyStrip (pyOrElse (gen i).actual_output "")) (gen i).status) ∧
    (i < n.toNat → (gen i).status = "passed" →
      (interact i (trialInput (gen i))).verdict ≠ .AC →
      interactive_stress_test gen interact n =
        .testFailed (i + 1) (interact i (trialInput (gen i))).verdict
          (interact i (trialInput (gen i))).time_ms
          (interact i (trialInput (gen i))).exit_code
          (interact i (trialInput (gen i))).error_message
          (trialInput (gen i)) (interact i (trialInput (gen i))).log) ∧
    (i = n.toNat → interactive_stress_test gen interact n = .passed n) := by
  have hbase : i ≤ n.toNat →
      interactive_stress_test gen interact n =
        stressLoop gen interact n i (n.toNat - i) := by
    intro hle
    unfold interactive_stress_test
    have := stressLoop_skip gen interact n i 0 n.toNat
      (fun j hj => by simpa using hprev j hj) hle
    simpa using this
  refine ⟨?_, ?_, ?_⟩
  · intro hlt hfail
    obtain ⟨m, hm⟩ : ∃ m, n.toNat - i = m + 1 := ⟨n.toNat - i - 1, by omega⟩
    rw [hbase (by omega), hm]
    simp only [stressLoop]
    rw [if_pos hfail]
  · intro hlt hpass hfail
    obtain ⟨m, hm⟩ : ∃ m, n.toNat - i = m + 1 := ⟨n.toNat - i - 1, by omega⟩
    rw [hbase (by omega), hm]
    simp only [stressLoop]
    rw [if_neg (by simp [hpass]), if_pos hfail]
  · intro heq
    rw [hbase (by omega), heq]
    simp [stressLoop]

/-- C10: for every `num_tests ≤ 0` the loop body never runs: the pass report
(confirming that `num_tests` value) is returned no matter what the executor
or the interaction would have answered. -/
theorem stress_nonpositive_passes (gen : Nat → ExecResult)
    (interact : Nat → String → InteractionResult) (n : Int) (h : n ≤ 0) :
    interactive_stress_test gen interact n = .passed n := by
  have h0 : n.toNat = 0 := Int.toNat_of_nonpos h
  unfold interactive_stress_test
  rw [h0]
  rfl

/-- C9 (amended): both spawn calls hand the children the same minimal
explicit three-variable environment, whose only dependence on the parent's
ambient environment is the `PATH` value it copies (defaulting to the empty
string): any two parent environments agreeing on `PATH` produce identical
judge and solver spawns.  (Full independence fails: `PATH` does leak, see the
counterexample.) -/
theorem child_env_minimal (pythonExe judgeFile inputFile solverFile tmpdir : String)
    (p1 p2 : String → Option String)
    (hpath : p1 "PATH" = p2 "PATH") :
    judgeSpawn pythonExe judgeFile inputFile p1 tmpdir =
      judgeSpawn pythonExe judgeFile inputFile p2 tmpdir ∧
    solverSpawn pythonExe solverFile p1 tmpdir =
      solverSpawn pythonExe solverFile p2 tmpdir ∧
    (buildEnv p1 tmpdir).map Prod.fst = ["PATH", "PYTHONUNBUFFERED", "HOME"] := by
  refine ⟨?_, ?_, ?_⟩ <;> simp [judgeSpawn, solverSpawn, buildEnv, hpath]

/-- Concrete configuration used by the witnesses: clocks start at 0, 30-second
total budget, 5-second per-turn budget. -/
def wCfg : Config :=
  { startTime := 0, lastActivity0 := 0, timeoutTotal := 30, timeoutPerTurn := 5 }

/-- Observation at clock 1: the judge has exited with code 0. -/
def wObsJudgeAC : Obs :=
  { now := 1, readTime := 1, judgePoll := some 0, solverPoll := none, events := [] }

/-- Observation at clock 31: nothing has happened and the total budget is
blown. -/
def wObsTotal : Obs :=
  { now := 31, readTime := 31, judgePoll := none, solverPoll := none, events := [] }

/-- Observation at clock 6: nothing has happened and the idle budget is blown
while the total budget is not. -/
def wObsTurn : Obs :=
  { now := 6, readTime := 6, judgePoll := none, solverPoll := none, events := [] }

/-- Observation at clock 1: the solver has exited with code 7, the judge is
still running. -/
def wObsSolverExit : Obs :=
  { now := 1, readTime := 1, judgePoll := none, solverPoll := some 7, events := [] }

/-- Observation at clock 4: the judge still runs, 3 seconds after the
solver's exit. -/
def wObsGrace : Obs :=
  { now := 4, readTime := 4, judgePoll := none, solverPoll := some 7, events := [] }

/-- Observation at clock 1: the judge has exited with code 3 (outside the
meaningful 0/1/2 range). -/
def cexObsJudge3 : Obs :=
  { now := 1, readTime := 1, judgePoll := some 3, solverPoll := none, events := [] }

/-- Loop state after the first witness iteration observed the solver's exit. -/
def wStExited : LoopState :=
  { lastActivity := 0, solverExited := true, solverExitTime := some 1,
    judgeBuffer := [], solverBuffer := [],
    log := [LogLine.solverExitInfo (some 7)], solverInbox := [], judgeInbox := [] }

/-- Witness for C2: a judge that exits 0 at clock 1 on the first iteration
yields AC carrying exit code 0. -/
theorem judge_exit_authoritative_witness :
    runLoop wCfg (initState wCfg) ([] ++ wObsJudgeAC :: []) =
      .inr (⟨.AC, [], 1000, some 0, none⟩, .judgeExit 0) := by
  have h := judge_exit_authoritative wCfg (initState wCfg) [] wObsJudgeAC [] 0 rfl rfl
    (by norm_num [wObsJudgeAC, wCfg]) (by norm_num [wObsJudgeAC, wCfg, initState])
  norm_num [wObsJudgeAC, wCfg, initState, exit_code_to_verdict] at h
  exact h

/-- Witness for C4: at clock 31 the total budget (30s) is exceeded, at clock
6 the idle budget (5s) is exceeded while the total is not; each returns TLE
with the message naming the exceeded budget. -/
theorem timeout_budgets_tle_witness :
    runLoop wCfg (initState wCfg) ([] ++ wObsTotal :: []) =
      .inr (⟨.TLE, [], 31000, none, some (.totalTimeout 30)⟩, .totalBudget) ∧
    runLoop wCfg (initState wCfg) ([] ++ wObsTurn :: []) =
      .inr (⟨.TLE, [], 6000, none, some (.turnTimeout 5)⟩, .turnBudget) := by
  constructor
  · have h := (timeout_budgets_tle wCfg (initState wCfg) [] wObsTotal [] rfl).1
      (by norm_num [wObsTotal, wCfg])
    norm_num [wObsTotal, wCfg, initState] at h
    exact h
  · have h := (timeout_budgets_tle wCfg (initState wCfg) [] wObsTurn [] rfl).2
      (by norm_num [wObsTurn, wCfg]) (by norm_num [wObsTurn, wCfg, initState])
    norm_num [wObsTurn, wCfg, initState] at h
    exact h

/-- Witness for C5: the solver exits with code 7 at clock 1; at clock 4 the
judge still runs, 3 seconds later, and the trial resolves RE with exit code
7. -/
theorem grace_window_re_witness :
    runLoop wCfg (initState wCfg) ([wObsSolverExit] ++ wObsGrace :: []) =
      .inr (⟨.RE, [LogLine.solverExitInfo (some 7)], 4000, some 7,
             some (.solverExitedJudgeSilent (some 7))⟩, .graceWindow (some 7)) := by
  have hpre : runLoop wCfg (initState wCfg) [wObsSolverExit] = .inl wStExited := by
    norm_num [runLoop, loopStep, initState, wCfg, wObsSolverExit, wStExited,
      noteSolverExit, graceExpired, graceArmed]
  have h := grace_window_re wCfg wStExited [wObsSolverExit] wObsGrace [] 1 7 hpre
    rfl rfl (by norm_num) rfl rfl
    (by norm_num [wObsGrace, wCfg]) (by norm_num [wObsGrace, wCfg, wStExited])
    (by norm_num [wObsGrace])
  norm_num [wObsGrace, wCfg, wStExited] at h
  exact h

/-- Witness for C7: an exception with description "boom" at clock 2 during
the first iteration returns RE with that description and no exit code. -/
theorem internal_exception_re_witness :
    run_interaction wCfg [] (some (0, 2, "boom")) =
      some (⟨.RE, [], 2000, none, some (.internalMsg "boom")⟩, .internalExc) := by
  have h := internal_exception_re wCfg [] 0 2 "boom" (initState wCfg) rfl
  norm_num [wCfg, initState] at h
  exact h

/-- Counterexample to C3 as stated: a judge exiting with code 3 yields an RE
result that DOES carry an exit code (the judge's own 3) although its verdict
is neither AC, WA nor PE and the RE was not caused by a recorded solver exit
code, so the claim's presence enumeration misses it. -/
theorem exit_code_presence_spec_cex :
    run_interaction wCfg [cexObsJudge3] none =
      some (⟨.RE, [], 1000, some 3, none⟩, .judgeExit 3) ∧
    ¬ exitCodePresenceSpec ⟨.RE, [], 1000, some 3, none⟩ (.judgeExit 3) := by
  constructor
  · norm_num [run_interaction, runLoop, loopStep, initState, wCfg, cexObsJudge3,
      exit_code_to_verdict]
  · simp [exitCodePresenceSpec]

/-- Witness for C3 (amended) on a concrete TLE run: the result carries no
exit code, matching the code recorded by its cause. -/
theorem exit_code_presence_amended_witness :
    run_interaction wCfg [wObsTotal] none =
      some (⟨.TLE, [], 31000, none, some (.totalTimeout 30)⟩, .totalBudget) ∧
    (⟨.TLE, [], 31000, none, some (.totalTimeout 30)⟩ : InteractionResult).exit_code =
      causeExitCode .totalBudget ∧
    ((⟨.TLE, [], 31000, none, some (.totalTimeout 30)⟩ : InteractionResult).verdict = .TLE →
      (⟨.TLE, [], 31000, none, some (.totalTimeout 30)⟩ : InteractionResult).exit_code =
        none) := by
  have heq : run_interaction wCfg [wObsTotal] none =
      some (⟨.TLE, [], 31000, none, some (.totalTimeout 30)⟩, .totalBudget) := by
    norm_num [run_interaction, runLoop, loopStep, initState, wCfg, wObsTotal]
  have h := exit_code_presence_amended wCfg [wObsTotal] none _ _ heq
  exact ⟨heq, h.1, h.2.2.2.2.1⟩

/-- Generator oracle that always fails its sandboxed run with no error
message and some partial output. -/
def wGenFail : Nat → ExecResult :=
  fun _ => ⟨"error", some "  partial out\n", none⟩

/-- Generator oracle that always passes, producing a fixed test input. -/
def wGenOK : Nat → ExecResult :=
  fun _ => ⟨"passed", some "1 2\n", none⟩

/-- Interaction oracle that always answers RE. -/
def wInteractRE : Nat → String → InteractionResult :=
  fun _ _ => ⟨.RE, [], 0, none, none⟩

/-- Interaction oracle that always answers WA with judge exit code 1 and a
one-line transcript. -/
def wInteractWA : Nat → String → InteractionResult :=
  fun _ _ => ⟨.WA, [LogLine.judgeToSolver [63]], 12, some 1, none⟩

/-- Interaction oracle that always answers AC. -/
def wInteractAC : Nat → String → InteractionResult :=
  fun _ _ => ⟨.AC, [], 1, some 0, none⟩

/-- Witness for C8: a failing generator aborts trial 1 with the
generator-error report and no interaction consulted; a WA interaction aborts
trial 1 with the failure report carrying its full data; all trials AC with
`num_tests = 2` returns the pass report for 2. -/
theorem stress_test_fail_fast_witness :
    interactive_stress_test wGenFail wInteractRE 3 =
      .generatorError 1 "Unknown error" "partial out" "error" ∧
    interactive_stress_test wGenOK wInteractWA 3 =
      .testFailed 1 .WA 12 (some 1) none "1 2\n" [LogLine.judgeToSolver [63]] ∧
    interactive_stress_test wGenOK wInteractAC 2 = .passed 2 := by
  refine ⟨?_, ?_, ?_⟩
  · have h := (stress_test_fail_fast wGenFail wInteractRE 3 0
      (fun j hj => absurd hj (Nat.not_lt_zero j))).1 (by decide) (by decide)
    rw [h]
    decide
  · have h := (stress_test_fail_fast wGenOK wInteractWA 3 0
      (fun j hj => absurd hj (Nat.not_lt_zero j))).2.1 (by decide) (by decide) (by decide)
    rw [h]
    decide
  · exact (stress_test_fail_fast wGenOK wInteractAC 2 2
      (fun j hj => ⟨rfl, rfl⟩)).2.2 (by decide)

/-- Witness for C10: `num_tests = -5` returns the pass report without
consulting the (always-failing) oracles. -/
theorem stress_nonpositive_passes_witness :
    (-5 : Int) ≤ 0 ∧
    interactive_stress_test wGenFail wInteractRE (-5) = .passed (-5) :=
  ⟨by norm_num, stress_nonpositive_passes wGenFail wInteractRE (-5) (by norm_num)⟩

/-- Counterexample to C9 as stated: the environment handed to the children is
NOT independent of the parent's ambient environment - setting the parent's
`PATH` changes the child environment. -/
theorem child_env_ambient_dependence_cex :
    judgeSpawn "python3" "judge.py" "input.txt" (fun _ => none) "/tmp" ≠
      judgeSpawn "python3" "judge.py" "input.txt"
        (fun v => if v = "PATH" then some "/ambient" else none) "/tmp" := by
  decide

/-- Witness for C9 (amended) at two concrete parent environments that agree
on `PATH` but differ everywhere else. -/
theorem child_env_minimal_witness :
    ((fun _ : String => some "/usr/bin") "PATH" =
      (fun v : String => if v = "PATH" then some "/usr/bin" else none) "PATH") ∧
    judgeSpawn "python3" "judge.py" "input.txt" (fun _ => some "/usr/bin") "/tmp" =
      judgeSpawn "python3" "judge.py" "input.txt"
        (fun v => if v = "PATH" then some "/usr/bin" else none) "/tmp" := by
  have h := child_env_minimal "python3" "judge.py" "input.txt" "solver.py" "/tmp"
    (fun _ => some "/usr/bin") (fun v => if v = "PATH" then some "/usr/bin" else none)
    (by decide)
  exact ⟨by decide, h.1⟩
